import Mathlib

/-!
# Verification of the general_256_vae repository

Shallow embedding of the convolutional variational autoencoder in
`vae.py` and the sampler in `generator.py`, together with proofs of the
behavioural properties stated in the specification.

Tensors are modelled as lists of reals (one entry per element); tensor
shapes as lists of naturals (channel, height, width); layer pipelines as
lists of layer descriptors carrying exactly the hyperparameters written
in the source, with a shape semantics implementing the standard
convolution / transposed-convolution output-size arithmetic.
-/

namespace VAE256

/-! ## Shape calculus for the layer pipelines -/

/-- Output spatial dimension of a 2-d convolution with input size `n`,
kernel `k`, stride `s`, padding `p` (dilation 1):
`floor ((n + 2p - k) / s) + 1`. -/
def conv2dOutDim (n k s p : Nat) : Nat :=
  (n + 2 * p - k) / s + 1

/-- Output spatial dimension of a 2-d transposed convolution with input
size `n`, kernel `k`, stride `s`, padding `p`, output padding `op`
(dilation 1): `(n - 1) * s - 2p + k + op`. -/
def convT2dOutDim (n k s p op : Nat) : Nat :=
  (n - 1) * s + k + op - 2 * p

/-- A layer of an `nn.Sequential` pipeline, carrying the hyperparameters
given in the source. -/
inductive Layer
  | conv2d (cin cout k s p : Nat)
  | convT2d (cin cout k s p op : Nat)
  | relu
  | flatten
  | linear (inFeatures outFeatures : Nat)
  | unflatten (c h w : Nat)
  | sigmoid
deriving DecidableEq, Repr

/-- Shape semantics of one layer: `none` on a structural mismatch
(channel count or feature width not matching the layer's declaration),
otherwise the output shape.  Shapes are `[c, h, w]` for image-like
tensors and `[f]` for flat feature vectors; the batch dimension is
elided (every operation in the source acts independently per sample). -/
def Layer.outShape : Layer → List Nat → Option (List Nat)
  | .conv2d cin cout k s p, [c, h, w] =>
      if c = cin then some [cout, conv2dOutDim h k s p, conv2dOutDim w k s p]
      else none
  | .convT2d cin cout k s p op, [c, h, w] =>
      if c = cin then
        some [cout, convT2dOutDim h k s p op, convT2dOutDim w k s p op]
      else none
  | .relu, sh => some sh
  | .flatten, [c, h, w] => some [c * h * w]
  | .linear inF outF, [f] => if f = inF then some [outF] else none
  | .unflatten c h w, [f] => if f = c * h * w then some [c, h, w] else none
  | .sigmoid, sh => some sh
  | _, _ => none

/-- Shape semantics of a sequential pipeline: thread the shape through
every layer, failing if any layer rejects its input. -/
def runShape (layers : List Layer) (sh : List Nat) : Option (List Nat) :=
  layers.foldl (fun acc l => acc.bind l.outShape) (some sh)

/-! ## The model architecture (vae.py lines 10-58) -/

/-- `latent_dim = 2056` (vae.py line 11). -/
def latent_dim : Nat := 2056

/-- `LATENT_DIM = latent_dim` (vae.py line 12). -/
def LATENT_DIM : Nat := latent_dim

/-- The encoder `nn.Sequential` (vae.py lines 19-37): seven
convolutions with ReLU after each, then `Flatten`,
`Linear(28800, 1024)`, ReLU. -/
def encoderLayers : List Layer :=
  [ .conv2d 3 16 4 1 1, .relu,
    .conv2d 16 16 4 2 1, .relu,
    .conv2d 16 32 4 1 1, .relu,
    .conv2d 32 32 4 2 1, .relu,
    .conv2d 32 64 4 1 1, .relu,
    .conv2d 64 64 4 2 1, .relu,
    .conv2d 64 128 4 2 1, .relu,
    .flatten,
    .linear 28800 1024, .relu ]

/-- The convolutional cascade of the encoder: the layers strictly before
`Flatten` (the first 14 entries of `encoderLayers`). -/
def encoderConvLayers : List Layer := encoderLayers.take 14

/-- `self.fc_mu = nn.Linear(1024, latent_dim)` (vae.py line 39). -/
def fc_mu (d : Nat) : Layer := .linear 1024 d

/-- `self.fc_log_var = nn.Linear(1024, latent_dim)` (vae.py line 40). -/
def fc_log_var (d : Nat) : Layer := .linear 1024 d

/-- The decoder `nn.Sequential` (vae.py lines 43-58): two linear
expansions, `Unflatten` to `128x16x16`, four transposed convolutions,
final `Sigmoid`. -/
def decoderLayers (d : Nat) : List Layer :=
  [ .linear d 1024, .relu,
    .linear 1024 (128 * 16 * 16), .relu,
    .unflatten 128 16 16,
    .convT2d 128 64 4 2 1 0, .relu,
    .convT2d 64 32 4 2 1 0, .relu,
    .convT2d 32 16 4 2 1 0, .relu,
    .convT2d 16 3 4 2 1 0, .sigmoid ]

/-- Shape semantics of `encode` (vae.py lines 64-68): run the encoder
pipeline, then the two parallel linear heads. -/
def encodeShape (d : Nat) (sh : List Nat) : Option (List Nat × List Nat) :=
  (runShape encoderLayers sh).bind fun h =>
    ((fc_mu d).outShape h).bind fun m =>
      ((fc_log_var d).outShape h).map fun l => (m, l)

/-! ## Value-level semantics of the stochastic and loss components -/

/-- The logistic sigmoid applied by the decoder's final `nn.Sigmoid()`
layer (vae.py line 57) to every element of the output tensor. -/
noncomputable def sigmoid (x : ℝ) : ℝ :=
  1 / (1 + Real.exp (-x))

/-- Elementwise action of the decoder's final layer (vae.py lines 56-57):
the last transposed convolution produces a pre-activation tensor `pre`
and `nn.Sigmoid()` maps it elementwise through the logistic function. -/
noncomputable def decoderFinalVals (pre : List ℝ) : List ℝ :=
  pre.map sigmoid

/-- `reparameterize` (vae.py lines 70-73): `std = exp(0.5 * log_var)`,
`eps = randn_like(std)` (modelled as the explicit argument `eps`, the
fresh standard-normal draw of this call), result `mu + eps * std`
elementwise. -/
noncomputable def reparameterize (mu logVar eps : List ℝ) : List ℝ :=
  let std := logVar.map fun t => Real.exp (0.5 * t)
  List.zipWith (fun m es => m + es) mu (List.zipWith (fun e s => e * s) eps std)

/-- `nn.functional.mse_loss(recon_x, x, reduction='mean')`
(vae.py line 85): mean of squared elementwise differences over all
elements of the tensor. -/
noncomputable def mseLossMean (recon x : List ℝ) : ℝ :=
  (((recon.zip x).map fun p => (p.1 - p.2) ^ 2).sum) / recon.length

/-- The KL-divergence term of `loss_function` (vae.py line 86):
`-0.5 * sum(1 + log_var - mu^2 - exp(log_var))`, summed over every
latent dimension of every batch element (no averaging). -/
noncomputable def KLD (mu logVar : List ℝ) : ℝ :=
  -(1 / 2) * (((mu.zip logVar).map fun p => 1 + p.2 - p.1 ^ 2 - Real.exp p.2).sum)

/-- `loss_function` (vae.py lines 84-88): returns
`(MSE, KLD, MSE + KLD)`. -/
noncomputable def loss_function (recon x mu logVar : List ℝ) : ℝ × ℝ × ℝ :=
  let MSE := mseLossMean recon x
  let KLDv := KLD mu logVar
  (MSE, KLDv, MSE + KLDv)

/-! ## Training loop (vae.py lines 156-215) -/

/-- `num_epochs = 100000` (vae.py line 171). -/
def num_epochs : Nat := 100000

/-- The periodic checkpoint condition of the training loop
(vae.py line 210): `epoch % 25 == 0 and epoch > 24`, with `epoch` the
0-based index of `range(num_epochs)`. -/
def shouldSavePeriodic (epoch : Nat) : Bool :=
  epoch % 25 == 0 && 24 < epoch

/-- Name of the periodic checkpoint file (vae.py line 211). -/
def periodicCheckpointName : String := "variational_autoencoder.pth"

/-- Name of the final checkpoint file (vae.py line 215). -/
def finalCheckpointName : String := "variational_autoencoder_final.pth"

/-- The sequence of checkpoint-save events of one full training run
(vae.py lines 210-215): the periodic saves inside the epoch loop, then
the final save after the loop, each tagged with the epoch count at which
it happens. -/
def saveTrace : List (Nat × String) :=
  (((List.range num_epochs).filter fun e => shouldSavePeriodic e).map
    fun e => (e, periodicCheckpointName)) ++ [(num_epochs, finalCheckpointName)]

/-- `test_model` (vae.py lines 110-122): average of the per-batch mean
squared reconstruction errors over the test dataloader, modelled on the
list of per-batch MSE values. -/
noncomputable def test_model (testBatchMses : List ℝ) : ℝ :=
  testBatchMses.sum / testBatchMses.length

/-- The log line appended at the end of one epoch (vae.py line 208),
with `fmt` modelling Python's fixed six-decimal float rendering and the
loss statistics already computed.  The source writes the 0-based epoch
index and terminates the line with a space and a newline. -/
def logLine (fmt : ℝ → String) (epoch : Nat)
    (avgTotal avgMse avgKld testMse : ℝ) : String :=
  "Epoch: " ++ toString epoch ++
  ", Avg_Total_Loss: " ++ fmt avgTotal ++
  ", Avg_MSE_Loss: " ++ fmt avgMse ++
  ", Avg_KLD_Loss: " ++ fmt avgKld ++
  ", Test_MSE_Loss: " ++ fmt testMse ++ " \n"

/-- The complete log line of one epoch (vae.py lines 172-208): the three
accumulators are the sums of the per-batch `(MSE, KLD, total)` loss
values and each average divides its accumulator by the number of
batches (`len(dataloader)`); the test figure is `test_model` on the
held-out loader. -/
noncomputable def epochLogLine (fmt : ℝ → String) (epoch : Nat)
    (batchLosses : List (ℝ × ℝ × ℝ)) (testBatchMses : List ℝ) : String :=
  logLine fmt epoch
    ((batchLosses.map fun b => b.2.2).sum / batchLosses.length)
    ((batchLosses.map fun b => b.1).sum / batchLosses.length)
    ((batchLosses.map fun b => b.2.1).sum / batchLosses.length)
    (test_model testBatchMses)

/-- The contents of `model_history.txt` after a run whose epoch `e`
produced the per-batch losses `epochs[e].1` and held-out per-batch MSE
values `epochs[e].2`: one appended line per epoch, in order. -/
noncomputable def trainingLog (fmt : ℝ → String)
    (epochs : List (List (ℝ × ℝ × ℝ) × List ℝ)) : List String :=
  epochs.enum.map fun p => epochLogLine fmt p.1 p.2.1 p.2.2

/-- How the training process obtains its model at startup. -/
inductive ModelInit
  | loadedFromCheckpoint
  | randomInit
deriving DecidableEq, Repr

/-- Startup model selection (vae.py lines 156-162): if the checkpoint
file exists on disk the model is loaded from it, otherwise a freshly
constructed (randomly initialized) model is used. -/
def startupModel (checkpointExists : Bool) : ModelInit :=
  if checkpointExists then .loadedFromCheckpoint else .randomInit

end VAE256

namespace Generator256

/-- `latent_dim = 2056` (generator.py line 10). -/
def latent_dim : Nat := 2056

/-- `LATENT_DIM = latent_dim` (generator.py line 11). -/
def LATENT_DIM : Nat := latent_dim

/-- One image-generation event of `generate_images`
(generator.py lines 92-103): the file it saves, the latent vector it
decodes, and whether gradient tracking was enabled while decoding. -/
structure GenEvent where
  filename : String
  latent : List ℝ
  gradEnabled : Bool

/-- `generate_images(model, num_images, folder_path)`
(generator.py lines 89-103): for `i in range(num_images)`, inside
`torch.no_grad()`, draw a fresh latent vector (`draw i`, the i-th
standard-normal draw of the run, of shape `(1, LATENT_DIM)`), decode it,
and save the result as `generated_image_{i+1}.png`. -/
noncomputable def generate_images (numImages : Nat) (draw : Nat → List ℝ) : List GenEvent :=
  (List.range numImages).map fun i =>
    ⟨"generated_image_" ++ toString (i + 1) ++ ".png", draw i, false⟩

/-- The shape of the random latent tensor drawn per generated image:
`torch.randn(1, LATENT_DIM)` (generator.py line 95). -/
def generatorLatentShape : List Nat := [1, LATENT_DIM]

end Generator256

/-! ## Helper lemmas -/

namespace VAE256

/-- The logistic sigmoid is nonnegative. -/
theorem sigmoid_nonneg (x : ℝ) : 0 ≤ sigmoid x := by
  unfold sigmoid
  have h : (0:ℝ) < 1 + Real.exp (-x) := by positivity
  positivity

/-- The logistic sigmoid is at most one. -/
theorem sigmoid_le_one (x : ℝ) : sigmoid x ≤ 1 := by
  unfold sigmoid
  have h : (0:ℝ) < 1 + Real.exp (-x) := by positivity
  rw [div_le_one h]
  have := (Real.exp_pos (-x)).le
  linarith

/-- A list of nonpositive reals has nonpositive sum. -/
theorem list_sum_nonpos {l : List ℝ} (h : ∀ x ∈ l, x ≤ 0) : l.sum ≤ 0 := by
  induction l with
  | nil => simp
  | cons a t ih =>
      simp only [List.sum_cons]
      have ha := h a (List.mem_cons_self a t)
      have ht := ih fun x hx => h x (List.mem_cons_of_mem a hx)
      linarith

/-- Every summand of the KL sum is nonpositive, because
`exp t ≥ 1 + t` and `m ^ 2 ≥ 0`. -/
theorem kld_summand_nonpos (m t : ℝ) : 1 + t - m ^ 2 - Real.exp t ≤ 0 := by
  have h1 : t + 1 ≤ Real.exp t := Real.add_one_le_exp t
  have h2 : 0 ≤ m ^ 2 := sq_nonneg m
  linarith

/-- Pointwise characterization of `reparameterize`: whenever all three
argument lists have an element at index `i`, the result has exactly
`mu i + eps i * exp (0.5 * logVar i)` there. -/
theorem reparameterize_getElem (mu lv eps : List ℝ) (i : Nat) (m t e : ℝ)
    (hm : mu[i]? = some m) (ht : lv[i]? = some t) (he : eps[i]? = some e) :
    (reparameterize mu lv eps)[i]? = some (m + e * Real.exp (0.5 * t)) := by
  induction mu generalizing lv eps i with
  | nil => simp at hm
  | cons m0 mu ih =>
    cases lv with
    | nil => simp at ht
    | cons t0 lv =>
      cases eps with
      | nil => simp at he
      | cons e0 eps =>
        cases i with
        | zero =>
          simp only [List.getElem?_cons_zero, Option.some.injEq] at hm ht he
          subst hm; subst ht; subst he
          simp [reparameterize]
        | succ i =>
          simp only [List.getElem?_cons_succ] at hm ht he
          have := ih lv eps i hm ht he
          simpa [reparameterize] using this

/-- The length of `reparameterize mu lv eps` is the minimum of the three
argument lengths. -/
theorem reparameterize_length (mu lv eps : List ℝ) :
    (reparameterize mu lv eps).length =
      min mu.length (min eps.length lv.length) := by
  simp [reparameterize]

end VAE256

/-! ## Claim theorems -/

/-- Claim C1, counterexample: on the 3x256x256 input, the encoder's
convolutional cascade (vae.py lines 20-33) does not produce a
128x16x16 feature volume before the flatten layer: with
kernel 4 / stride 1 / padding 1 each "refine" stage shrinks the spatial
size by one, so the cascade actually yields 128x15x15. -/
theorem C1_encoder_volume_counterexample :
    VAE256.runShape VAE256.encoderConvLayers [3, 256, 256] = some [128, 15, 15] ∧
    VAE256.runShape VAE256.encoderConvLayers [3, 256, 256] ≠ some [128, 16, 16] := by
  decide

/-- Claim C1 (amended): for the 3x256x256 input, the encoder's
convolutional cascade produces a 128x15x15 feature volume
(spatial sizes 256 -> 255 -> 127 -> 126 -> 63 -> 62 -> 31 -> 15), i.e.
28800 elements, immediately before the flatten layer, and this exactly
matches the declared flatten-to-linear input width of 28800, so the
whole encoder pipeline composes to a 1024-feature output. -/
theorem C1_encoder_flatten_width_matches_linear :
    VAE256.runShape VAE256.encoderConvLayers [3, 256, 256] = some [128, 15, 15] ∧
    (128 * 15 * 15 : Nat) = 28800 ∧
    VAE256.runShape VAE256.encoderLayers [3, 256, 256] = some [1024] := by
  decide

/-- Claim C5: the decoder pipeline maps a `latent_dim`-length code to a
3x256x256 output, the encoder followed by the two heads maps a
3x256x256 image to two `latent_dim`-length statistic vectors (so
`forward = decode ∘ reparameterize ∘ encode` is shape-preserving,
`reparameterize` preserving length by `reparameterize_length`), and the
final `nn.Sigmoid()` layer keeps the output elementwise, with every
output value in `[0, 1]`. -/
theorem C5_decoder_shape_and_range :
    VAE256.runShape (VAE256.decoderLayers VAE256.latent_dim) [VAE256.latent_dim] =
      some [3, 256, 256] ∧
    VAE256.encodeShape VAE256.latent_dim [3, 256, 256] =
      some ([VAE256.latent_dim], [VAE256.latent_dim]) ∧
    (∀ pre : List ℝ, (VAE256.decoderFinalVals pre).length = pre.length) ∧
    (∀ (pre : List ℝ) (v : ℝ), v ∈ VAE256.decoderFinalVals pre → 0 ≤ v ∧ v ≤ 1) := by
  refine ⟨by decide, by decide, fun pre => by simp [VAE256.decoderFinalVals], ?_⟩
  intro pre v hv
  obtain ⟨x, _, rfl⟩ := List.mem_map.mp hv
  exact ⟨VAE256.sigmoid_nonneg x, VAE256.sigmoid_le_one x⟩

/-- Witness for C5: the decoder range bound applied to the concrete
one-element pre-activation tensor `[0]`. -/
theorem C5_decoder_range_witness :
    0 ≤ VAE256.sigmoid 0 ∧ VAE256.sigmoid 0 ≤ 1 :=
  C5_decoder_shape_and_range.2.2.2 [0] (VAE256.sigmoid 0)
    (by simp [VAE256.decoderFinalVals])

/-- Claim C9: at training-process start (vae.py lines 156-162), the
model parameters are loaded from the checkpoint exactly when the
checkpoint file exists, and otherwise the freshly constructed randomly
initialized model is used. -/
theorem C9_startup_checkpoint_load :
    VAE256.startupModel true = VAE256.ModelInit.loadedFromCheckpoint ∧
    VAE256.startupModel false = VAE256.ModelInit.randomInit :=
  ⟨rfl, rfl⟩

/-- Claim C10: the trainer (vae.py) and the generator (generator.py)
use the same latent dimensionality constant 2056, so the latent
projection heads and the decoder built by the two scripts have
identical layer shapes (checkpoint-compatible), and the generator's
random latent tensor has shape `(1, 2056)` — exactly the trainer's
latent dimensionality. -/
theorem C10_latent_dim_consistency :
    VAE256.latent_dim = 2056 ∧
    Generator256.latent_dim = 2056 ∧
    VAE256.LATENT_DIM = Generator256.LATENT_DIM ∧
    VAE256.fc_mu Generator256.LATENT_DIM = VAE256.fc_mu VAE256.LATENT_DIM ∧
    VAE256.fc_log_var Generator256.LATENT_DIM = VAE256.fc_log_var VAE256.LATENT_DIM ∧
    VAE256.decoderLayers Generator256.LATENT_DIM =
      VAE256.decoderLayers VAE256.LATENT_DIM ∧
    Generator256.generatorLatentShape = [1, VAE256.LATENT_DIM] :=
  ⟨rfl, rfl, rfl, rfl, rfl, rfl, rfl⟩

/-- Claim C6: the training loop saves the periodic checkpoint exactly at
the epochs of the form `25 * k` with `k ≥ 1` (so never at any epoch
before the 25th), every periodic save in the run's save trace satisfies
that condition, and after the fixed budget of `num_epochs` epochs the
final checkpoint is saved last under a name distinct from the periodic
checkpoint's. -/
theorem C6_checkpoint_cadence :
    (∀ e : Nat, VAE256.shouldSavePeriodic e = true ↔ ∃ k, 1 ≤ k ∧ e = 25 * k) ∧
    (∀ e : Nat, e < 25 → VAE256.shouldSavePeriodic e = false) ∧
    (∀ p ∈ VAE256.saveTrace, p.2 = VAE256.periodicCheckpointName →
      VAE256.shouldSavePeriodic p.1 = true) ∧
    VAE256.saveTrace.getLast? = some (VAE256.num_epochs, VAE256.finalCheckpointName) ∧
    VAE256.finalCheckpointName ≠ VAE256.periodicCheckpointName := by
  refine ⟨?_, ?_, ?_, ?_, by decide⟩
  · intro e
    constructor
    · intro h
      simp only [VAE256.shouldSavePeriodic, Bool.and_eq_true, beq_iff_eq,
        decide_eq_true_eq] at h
      obtain ⟨hmod, hgt⟩ := h
      have hdvd : 25 ∣ e := Nat.dvd_of_mod_eq_zero hmod
      obtain ⟨k, rfl⟩ := hdvd
      exact ⟨k, by omega, rfl⟩
    · rintro ⟨k, hk, rfl⟩
      simp only [VAE256.shouldSavePeriodic, Bool.and_eq_true, beq_iff_eq,
        decide_eq_true_eq]
      exact ⟨Nat.mul_mod_right 25 k, by omega⟩
  · intro e he
    have hne : ¬ 24 < e := by omega
    simp [VAE256.shouldSavePeriodic, hne]
  · intro p hp hname
    rcases List.mem_append.mp hp with hl | hr
    · obtain ⟨e, he, rfl⟩ := List.mem_map.mp hl
      exact (List.mem_filter.mp he).2
    · have : p = (VAE256.num_epochs, VAE256.finalCheckpointName) := by
        simpa using hr
      subst this
      exact absurd hname (by decide)
  · unfold VAE256.saveTrace
    simp

/-- Witness for C6: the cadence condition holds at epoch 50 (= 25 * 2)
and fails at epoch 10 (< 25). -/
theorem C6_checkpoint_cadence_witness :
    VAE256.shouldSavePeriodic 50 = true ∧ VAE256.shouldSavePeriodic 10 = false :=
  ⟨(C6_checkpoint_cadence.1 50).mpr ⟨2, by decide, by decide⟩,
   C6_checkpoint_cadence.2.1 10 (by decide)⟩

/-- Claim C2: `loss_function` returns the triple whose reconstruction
term is the mean of the squared elementwise errors (total divided by
the number of elements), whose divergence term is
`-0.5 * Σ (1 + logσ² - μ² - exp logσ²)` summed — not averaged — over
all latent dimensions and batch elements (witnessed by additivity of
`KLD` under concatenation of batch elements), and whose total is their
unweighted sum with no scaling coefficient. -/
theorem C2_loss_function_spec :
    (∀ recon x mu lv : List ℝ, VAE256.loss_function recon x mu lv =
      (VAE256.mseLossMean recon x, VAE256.KLD mu lv,
       VAE256.mseLossMean recon x + VAE256.KLD mu lv)) ∧
    (∀ recon x : List ℝ, VAE256.mseLossMean recon x =
      (((recon.zip x).map fun p => (p.1 - p.2) ^ 2).sum) / recon.length) ∧
    (∀ mu lv : List ℝ, VAE256.KLD mu lv =
      -(1 / 2) * (((mu.zip lv).map fun p => 1 + p.2 - p.1 ^ 2 - Real.exp p.2).sum)) ∧
    (∀ mu1 lv1 mu2 lv2 : List ℝ, mu1.length = lv1.length →
      VAE256.KLD (mu1 ++ mu2) (lv1 ++ lv2) =
        VAE256.KLD mu1 lv1 + VAE256.KLD mu2 lv2) := by
  refine ⟨fun recon x mu lv => rfl, fun recon x => rfl, fun mu lv => rfl, ?_⟩
  intro mu1 lv1 mu2 lv2 h
  unfold VAE256.KLD
  rw [List.zip_append h, List.map_append, List.sum_append, mul_add]

/-- Witness for C2: KL additivity applied to the concrete one-element
batches `(μ, logσ²) = ([1], [0])` and `([2], [0])`. -/
theorem C2_loss_function_spec_witness :
    VAE256.KLD ([1] ++ [2]) ([0] ++ [0]) =
      VAE256.KLD [1] [0] + VAE256.KLD [2] [0] :=
  C2_loss_function_spec.2.2.2 [1] [0] [2] [0] rfl

/-- Claim C3: the divergence term of the loss is nonnegative for all
finite `μ` and `logσ²`, and it is exactly zero when `μ = 0` and
`logσ² = 0` (posterior equal to the prior), in any latent
dimensionality `n`. -/
theorem C3_kld_nonneg_and_zero :
    (∀ mu lv : List ℝ, 0 ≤ VAE256.KLD mu lv) ∧
    (∀ n : Nat, VAE256.KLD (List.replicate n 0) (List.replicate n 0) = 0) := by
  constructor
  · intro mu lv
    unfold VAE256.KLD
    have hsum : (((mu.zip lv).map fun p => 1 + p.2 - p.1 ^ 2 - Real.exp p.2).sum) ≤ 0 := by
      apply VAE256.list_sum_nonpos
      intro x hx
      obtain ⟨p, _, rfl⟩ := List.mem_map.mp hx
      exact VAE256.kld_summand_nonpos p.1 p.2
    nlinarith
  · intro n
    unfold VAE256.KLD
    rw [List.zip_replicate, min_self]
    simp [Real.exp_zero]

/-- Claim C4: `reparameterize` (vae.py lines 70-73) computes
`std = exp(0.5 * logσ²)` and returns `μ + eps * std` elementwise, where
`eps` is the fresh standard-normal draw of the call (`randn_like(std)`,
modelled as an explicit argument of `std`'s shape); when `logσ²` and
`eps` have `μ`'s length, the output has exactly `μ`'s length. -/
theorem C4_reparameterize_spec :
    (∀ mu lv eps : List ℝ, lv.length = mu.length → eps.length = mu.length →
      (VAE256.reparameterize mu lv eps).length = mu.length) ∧
    (∀ (mu lv eps : List ℝ) (i : Nat) (m t e : ℝ),
      mu[i]? = some m → lv[i]? = some t → eps[i]? = some e →
      (VAE256.reparameterize mu lv eps)[i]? =
        some (m + e * Real.exp (0.5 * t))) := by
  constructor
  · intro mu lv eps h1 h2
    rw [VAE256.reparameterize_length, h1, h2]
    omega
  · intro mu lv eps i m t e hm ht he
    exact VAE256.reparameterize_getElem mu lv eps i m t e hm ht he

/-- Witness for C4: the sampler applied to the concrete one-element
tensors `μ = [1]`, `logσ² = [0]`, `eps = [2]`. -/
theorem C4_reparameterize_spec_witness :
    (VAE256.reparameterize [1] [0] [2]).length = 1 ∧
    (VAE256.reparameterize [1] [0] [2])[0]? =
      some (1 + 2 * Real.exp (0.5 * 0)) :=
  ⟨C4_reparameterize_spec.1 [1] [0] [2] rfl rfl,
   C4_reparameterize_spec.2 [1] [0] [2] 0 1 0 2 rfl rfl rfl⟩

/-- Claim C7: the training log holds exactly one line per epoch, and the
line of epoch `e` is exactly
`Epoch: <e>, Avg_Total_Loss: <v>, Avg_MSE_Loss: <v>, Avg_KLD_Loss: <v>,
Test_MSE_Loss: <v>` (with a trailing space and newline as written by
vae.py line 208), where each average is the per-epoch accumulator — the
sum of that loss over the epoch's batches — divided by the number of
batches, and the test figure is `test_model` on the held-out per-batch
errors. -/
theorem C7_training_log_spec :
    (∀ (fmt : ℝ → String) (epochs : List (List (ℝ × ℝ × ℝ) × List ℝ)),
      (VAE256.trainingLog fmt epochs).length = epochs.length) ∧
    (∀ (fmt : ℝ → String) (epochs : List (List (ℝ × ℝ × ℝ) × List ℝ))
       (e : Nat) (bl : List (ℝ × ℝ × ℝ)) (tm : List ℝ),
      epochs[e]? = some (bl, tm) →
      (VAE256.trainingLog fmt epochs)[e]? = some
        ("Epoch: " ++ toString e ++
         ", Avg_Total_Loss: " ++ fmt ((bl.map fun b => b.2.2).sum / bl.length) ++
         ", Avg_MSE_Loss: " ++ fmt ((bl.map fun b => b.1).sum / bl.length) ++
         ", Avg_KLD_Loss: " ++ fmt ((bl.map fun b => b.2.1).sum / bl.length) ++
         ", Test_MSE_Loss: " ++ fmt (VAE256.test_model tm) ++ " \n")) := by
  constructor
  · intro fmt epochs
    simp [VAE256.trainingLog]
  · intro fmt epochs e bl tm h
    simp [VAE256.trainingLog, List.getElem?_map, List.getElem?_enum, h,
      VAE256.epochLogLine, VAE256.logLine]

/-- Witness for C7: the log-line format applied to the concrete
single-epoch run with one batch of losses `(1, 2, 3)`, held-out error
list `[4]`, and the constant formatter. -/
theorem C7_training_log_spec_witness :
    (VAE256.trainingLog (fun _ => "v") [([(1, 2, 3)], [4])])[0]? = some
      ("Epoch: " ++ toString 0 ++
       ", Avg_Total_Loss: " ++ "v" ++
       ", Avg_MSE_Loss: " ++ "v" ++
       ", Avg_KLD_Loss: " ++ "v" ++
       ", Test_MSE_Loss: " ++ "v" ++ " \n") :=
  C7_training_log_spec.2 (fun _ => "v") [([(1, 2, 3)], [4])] 0 [(1, 2, 3)] [4] rfl

/-- Claim C8: for every `N`, `generate_images` produces exactly `N`
image-save events; the `i`-th (0-based) event decodes the `i`-th fresh
standard-normal draw of the run with gradient tracking disabled and
saves to `generated_image_<i+1>.png` — a 1-based sequential index. -/
theorem C8_generate_images_spec :
    (∀ (n : Nat) (draw : Nat → List ℝ),
      (Generator256.generate_images n draw).length = n) ∧
    (∀ (n : Nat) (draw : Nat → List ℝ) (i : Nat), i < n →
      (Generator256.generate_images n draw)[i]? =
        some ⟨"generated_image_" ++ toString (i + 1) ++ ".png", draw i, false⟩) := by
  constructor
  · intro n draw
    simp [Generator256.generate_images]
  · intro n draw i h
    simp [Generator256.generate_images, List.getElem?_map, List.getElem?_range, h]

/-- Witness for C8: generating three images with a trivial draw stream,
the first saved file is `generated_image_1.png`, from draw 0, with
gradients disabled. -/
theorem C8_generate_images_spec_witness :
    (Generator256.generate_images 3 (fun _ => []))[0]? =
      some ⟨"generated_image_" ++ toString (0 + 1) ++ ".png", [], false⟩ :=
  C8_generate_images_spec.2 3 (fun _ => []) 0 (by decide)
